import Mathlib

/-!
Shallow embedding of the contact/message/image resolution pipeline of
`whatsapp_sender.py` (functions `read_contacts_from_excel`,
`find_image_for_contact`, and the image-selection part of
`send_bulk_messages`).  Strings are Lean `String`s manipulated through
their underlying `List Char`; Python string operations used by the source
are modelled one-to-one below.  The filesystem (os.path.exists,
os.listdir) is modelled as an explicit `FS` record; paths follow a POSIX
model (absolute = leading '/').  Browser automation is out of scope.
-/

namespace WhatsAppSender

/-- Python truthiness of an optional string: `None` and `""` are falsy. -/
def truthy : Option String → Bool
  | none => false
  | some s => s ≠ ""

/-- Python whitespace characters stripped by `str.strip()` (ASCII range). -/
def pyIsSpace (c : Char) : Bool :=
  c = ' ' || c = '\t' || c = '\n' || c = '\r' || c = '\x0b' || c = '\x0c'

/-- Python `str.strip()`: drop whitespace from both ends. -/
def pyStrip (s : String) : String :=
  ⟨((s.data.dropWhile pyIsSpace).reverse.dropWhile pyIsSpace).reverse⟩

/-- Python `str.lstrip('\n\r')`: drop leading newline characters. -/
def pyLStripNewlines (s : String) : String :=
  ⟨s.data.dropWhile (fun c => c = '\n' || c = '\r')⟩

/-- Python `s.replace(c, "")` for a single-character pattern: remove every
occurrence of `c`. -/
def pyRemoveChar (s : String) (c : Char) : String :=
  ⟨s.data.filter (fun a => a ≠ c)⟩

/-- Python `str.lower()` (ASCII model). -/
def pyLower (s : String) : String :=
  ⟨s.data.map Char.toLower⟩

/-- Python `s.endswith(suffix)`. -/
def pyEndsWith (s suffix : String) : Bool :=
  suffix.data.isSuffixOf s.data

/-- `os.path.isabs` (POSIX model): the path starts with '/'. -/
def isabs (p : String) : Bool :=
  match p.data with
  | [] => false
  | c :: _ => c = '/'

/-- `os.path.join(a, b)` for two components (POSIX model). -/
def joinPath (a b : String) : String :=
  if isabs b then b
  else if a = "" then b
  else if a.data.getLast? = some '/' then a ++ b
  else a ++ "/" ++ b

/-- The source's recurring `if not os.path.isabs(p): p = os.path.join(excelDir, p)`
idiom: resolve a possibly-relative path against the spreadsheet directory. -/
def resolveAgainst (excelDir p : String) : String :=
  if isabs p then p else joinPath excelDir p

/-- Filesystem model: which paths exist (`os.path.exists`) and directory
listings in listing order (`os.listdir`). -/
structure FS where
  pathExists : String → Bool
  listdir : String → List String

/-- One spreadsheet cell as produced by `iter_rows(values_only=True)`:
`none` for an empty cell, `some s` for a cell rendering as string `s`. -/
abbrev Cell := Option String

/-- One spreadsheet data row (the tuple yielded by `iter_rows`). -/
abbrev Row := List Cell

/-- Python `row[i]` on an `iter_rows` tuple (openpyxl pads every row to the
sheet's width, so reads below the row's length are only a modelling
convenience; the one place an out-of-range read can really occur — `row[2]`
on a too-narrow sheet — is modelled explicitly in `readRows`). -/
def cellAt (row : Row) (i : Nat) : Cell :=
  row.getD i none

/-- A loaded contact: the dict appended by `read_contacts_from_excel`. -/
structure Contact where
  number : String
  message : String
  image_path : Option String
  deriving Repr, DecidableEq

/-- Line 68 of the source: strip spaces, hyphens and parentheses from the
contact number (chained `str.replace(_, "")` calls). -/
def normalizeNumber (s : String) : String :=
  pyRemoveChar (pyRemoveChar (pyRemoveChar (pyRemoveChar s ' ') '-') '(') ')'

/-- Lines 48-52: extract the optional contact name from cell B: skipped
unless the raw cell is truthy; the stripped value, or `None` when the strip
leaves the empty string. -/
def getContactName (cellB : Cell) : Option String :=
  match cellB with
  | none => none
  | some s =>
    if s = "" then none
    else
      let t := pyStrip s
      if t = "" then none else some t

/-- Lines 59-65: build the final message from the (already normalised)
optional contact name and the message text. -/
def composeMessage (contact_name : Option String) (message : String) : String :=
  if truthy contact_name then
    "Dear " ++ contact_name.getD "" ++ ",\n\n" ++ pyLStripNewlines message
  else message

/-- Lines 70-78: the per-row image path from cell D.  Kept `none` unless the
raw cell is truthy; the stripped value may be the falsy `""`; a non-empty
relative path is joined onto the spreadsheet's directory, an absolute one is
used as-is.  No file-existence check is made (no `FS` argument). -/
def getRowImagePath (excelDir : String) (cellD : Cell) : Option String :=
  match cellD with
  | none => none
  | some s =>
    if s = "" then none
    else
      let p := pyStrip s
      if p = "" then some p
      else some (resolveAgainst excelDir p)

/-- Line 44: a row passes the inclusion check when cells A and C are both
truthy (`if row[0] and row[2]`). -/
def qualifies (row : Row) : Bool :=
  truthy (cellAt row 0) && truthy (cellAt row 2)

/-- Lines 45-84: the contact dict built from one qualifying row.
`excelDir` stands for `os.path.dirname(os.path.abspath(file_path))`. -/
def mkContact (excelDir : String) (row : Row) : Contact :=
  { number := normalizeNumber (pyStrip ((cellAt row 0).getD ""))
    message := composeMessage (getContactName (cellAt row 1))
      (pyStrip ((cellAt row 2).getD ""))
    image_path := getRowImagePath excelDir (cellAt row 3) }

/-- The row loop of `read_contacts_from_excel` (lines 43-84).  Python's
`row[0] and row[2]` short-circuits, so `row[2]` raises `IndexError` exactly
when `row[0]` is truthy and the row has no third entry; the error aborts the
scan (modelled as `Except.error`), and later rows are not reached. -/
def readRows (excelDir : String) : List Row → Except Unit (List Contact)
  | [] => .ok []
  | row :: rest =>
    if truthy (cellAt row 0) then
      if row.length ≤ 2 then .error ()
      else if truthy (cellAt row 2) then
        match readRows excelDir rest with
        | .ok cs => .ok (mkContact excelDir row :: cs)
        | .error e => .error e
      else readRows excelDir rest
    else readRows excelDir rest

/-- `read_contacts_from_excel` (lines 36-92).  The `loaded` argument models
the result of `openpyxl.load_workbook` plus row extraction: `Except.error`
when the file is missing/corrupt/unreadable.  Any exception — load failure
or a mid-scan `IndexError` — lands in the `except` clause, which prints a
message and returns the empty list (discarding partial results). -/
def read_contacts_from_excel (excelDir : String)
    (loaded : Except String (List Row)) : List Contact :=
  match loaded with
  | .error _ => []
  | .ok rows =>
    match readRows excelDir rows with
    | .ok cs => cs
    | .error _ => []

/-- Line 2941: clean the contact number for filename matching — remove
'+', spaces and hyphens (parentheses are NOT removed here). -/
def cleanNumber (s : String) : String :=
  pyRemoveChar (pyRemoveChar (pyRemoveChar s '+') ' ') '-'

/-- Line 2943: the supported image extensions, in lookup order. -/
def image_extensions : List String :=
  [".jpg", ".jpeg", ".png", ".gif", ".webp"]

/-- The extension loops (lines 2952-2955 and 2968-2971): first existing
`{clean}{ext}` inside `dir`, tried in extension order. -/
def firstExistingExt (fs : FS) (dir clean : String) : List String → Option String
  | [] => none
  | ext :: rest =>
    let p := joinPath dir (clean ++ ext)
    if fs.pathExists p then some p else firstExistingExt fs dir clean rest

/-- Line 2961: does the (lowercased) filename end in a supported image
extension? -/
def isImageFile (name : String) : Bool :=
  image_extensions.any (fun ext => pyEndsWith (pyLower name) ext)

/-- The listdir loops (lines 2958-2964 and 2974-2980): first image-like file
in the directory listing, joined onto `dir`. -/
def firstImageInListing (dir : String) : List String → Option String
  | [] => none
  | f :: rest =>
    if isImageFile f then some (joinPath dir f) else firstImageInListing dir rest

/-- `find_image_for_contact` (lines 2920-2982).  `excelDir` stands for
`os.path.dirname(os.path.abspath(excel_file_path))` (or the cwd when that is
empty).  An unreadable directory (`except: pass` around the listdir loops)
is modelled by a total `FS.listdir`. -/
def find_image_for_contact (fs : FS) (contact_number excelDir : String)
    (images_folder : Option String) : Option String :=
  let clean := cleanNumber contact_number
  let fromFolder : Option String :=
    if truthy images_folder then
      let folder := resolveAgainst excelDir (images_folder.getD "")
      if fs.pathExists folder then
        match firstExistingExt fs folder clean image_extensions with
        | some p => some p
        | none => firstImageInListing folder (fs.listdir folder)
      else none
    else none
  match fromFolder with
  | some p => some p
  | none =>
    match firstExistingExt fs excelDir clean image_extensions with
    | some p => some p
    | none => firstImageInListing excelDir (fs.listdir excelDir)

/-- Lines 3003-3013 of `send_bulk_messages`: resolve `default_image`
against the spreadsheet directory and silently drop it (set it to `None`,
after printing a warning) when the resolved file does not exist. -/
def setupDefaultImage (fs : FS) (excelDir : String)
    (default_image : Option String) : Option String :=
  if truthy default_image then
    let d := resolveAgainst excelDir (default_image.getD "")
    if fs.pathExists d then some d else none
  else default_image

/-- Lines 3016-3025 of `send_bulk_messages`: when an images folder is
configured and no default image survived the check, resolve it against the
spreadsheet directory and drop it when it does not exist. -/
def setupImagesFolder (fs : FS) (excelDir : String)
    (defaultAfter images_folder : Option String) : Option String :=
  if truthy images_folder && !truthy defaultAfter then
    let f := resolveAgainst excelDir (images_folder.getD "")
    if fs.pathExists f then some f else none
  else images_folder

/-- Lines 3145-3164 of `send_bulk_messages`: the image chosen for one
contact, given the post-setup `default_image` and `images_folder`.
Mode 1: a truthy default image is used for everyone; Mode 2: the per-row
path when truthy, else `find_image_for_contact`; Mode 3: text-only. -/
def resolveJobImage (fs : FS) (excelDir : String)
    (default_image images_folder : Option String) (contact : Contact) :
    Option String :=
  if truthy default_image then default_image
  else if truthy images_folder then
    if truthy contact.image_path then contact.image_path
    else find_image_for_contact fs contact.number excelDir images_folder
  else none

/-- The image-selection behaviour of one `send_bulk_messages` run: the two
setup checks followed by the per-contact choice, one image option per
contact in order.  (Browser interaction and delivery are out of scope.) -/
def send_bulk_images (fs : FS) (excelDir : String)
    (default_image images_folder : Option String) (contacts : List Contact) :
    List (Option String) :=
  let d := setupDefaultImage fs excelDir default_image
  let f := setupImagesFolder fs excelDir d images_folder
  contacts.map (resolveJobImage fs excelDir d f)

/-- The spreadsheet-directory search of `find_image_for_contact`
(lines 2966-2982), stated on its own: the number-matched file first, then
the first image-like file in the directory listing. -/
def searchDir (fs : FS) (dir clean : String) : Option String :=
  match firstExistingExt fs dir clean image_extensions with
  | some p => some p
  | none => firstImageInListing dir (fs.listdir dir)

/-! ### Helper lemmas -/

theorem data_mk (l : List Char) : (String.mk l).data = l := rfl

/-- On rows wide enough that `row[2]` cannot raise, the row loop succeeds
and returns exactly the qualifying rows, converted in order. -/
theorem readRows_ok (dir : String) : ∀ (rows : List Row),
    (∀ r ∈ rows, 3 ≤ r.length) →
    readRows dir rows = .ok ((rows.filter qualifies).map (mkContact dir))
  | [], _ => rfl
  | row :: rest, h => by
    have hrow : 3 ≤ row.length := h row (List.mem_cons_self _ _)
    have hrest := readRows_ok dir rest (fun r hr => h r (List.mem_cons_of_mem _ hr))
    have hlen : ¬ row.length ≤ 2 := by omega
    cases h0 : truthy (cellAt row 0) with
    | false => simp [readRows, h0, hrest, List.filter_cons, qualifies]
    | true =>
      cases h2 : truthy (cellAt row 2) with
      | false => simp [readRows, h0, h2, hlen, hrest, List.filter_cons, qualifies]
      | true => simp [readRows, h0, h2, hlen, hrest, List.filter_cons, qualifies]

/-- When no row qualifies, the row loop yields the empty list or aborts
with an error (a too-short row with a truthy first cell). -/
theorem readRows_none (dir : String) : ∀ (rows : List Row),
    (∀ r ∈ rows, qualifies r = false) →
    readRows dir rows = .ok [] ∨ readRows dir rows = .error ()
  | [], _ => .inl rfl
  | row :: rest, h => by
    have hrow : qualifies row = false := h row (List.mem_cons_self _ _)
    have hrest := readRows_none dir rest (fun r hr => h r (List.mem_cons_of_mem _ hr))
    cases h0 : truthy (cellAt row 0) with
    | false => simpa [readRows, h0] using hrest
    | true =>
      have h2 : truthy (cellAt row 2) = false := by
        simpa [qualifies, h0] using hrow
      by_cases hlen : row.length ≤ 2
      · right
        simp [readRows, h0, hlen]
      · simpa [readRows, h0, h2, hlen] using hrest

theorem append_ne_empty_right (a b : String) (hb : b ≠ "") : a ++ b ≠ "" := by
  intro h
  apply hb
  have hd : (a ++ b).data = [] := by rw [h]
  rw [String.data_append] at hd
  have hb' : b.data = [] := (List.append_eq_nil.mp hd).2
  cases b with
  | mk l => cases hb'; rfl

theorem joinPath_ne_empty (a b : String) (hb : b ≠ "") : joinPath a b ≠ "" := by
  unfold joinPath
  by_cases h1 : isabs b = true
  · simp [h1, hb]
  · simp only [h1, if_false]
    by_cases h2 : a = ""
    · simp [h2, hb]
    · by_cases h3 : a.data.getLast? = some '/' <;>
        simp [h2, h3, append_ne_empty_right, hb]

theorem resolveAgainst_ne_empty (dir p : String) (hp : p ≠ "") :
    resolveAgainst dir p ≠ "" := by
  unfold resolveAgainst
  by_cases h : isabs p = true <;> simp [h, hp, joinPath_ne_empty]

theorem normalizeNumber_data (s : String) :
    (normalizeNumber s).data =
      s.data.filter (fun c => !(c == ' ' || c == '-' || c == '(' || c == ')')) := by
  simp only [normalizeNumber, pyRemoveChar, data_mk]
  rw [List.filter_filter, List.filter_filter, List.filter_filter]
  refine List.filter_congr fun a _ => ?_
  by_cases h1 : a = ' ' <;> by_cases h2 : a = '-' <;>
    by_cases h3 : a = '(' <;> by_cases h4 : a = ')' <;>
      simp [h1, h2, h3, h4]

/-! ### Claims -/

/-- C6 (confirmed): contact-number normalization (line 68) removes exactly
spaces, hyphens and parentheses, keeps every other character (so a leading
'+' is preserved), and in particular sends `" +91 955-561 (1880)"` to
`"+919555611880"`. -/
theorem c6_number_normalization (s : String) :
    normalizeNumber s =
      ⟨s.data.filter (fun c => !(c == ' ' || c == '-' || c == '(' || c == ')'))⟩
    ∧ (s.data.head? = some '+' → (normalizeNumber s).data.head? = some '+')
    ∧ normalizeNumber " +91 955-561 (1880)" = "+919555611880" := by
  refine ⟨?_, ?_, by decide⟩
  · apply String.ext
    simpa [data_mk] using normalizeNumber_data s
  · intro h
    have hd := normalizeNumber_data s
    rcases hs : s.data with _ | ⟨c, t⟩
    · rw [hs] at h
      cases h
    · rw [hs] at h
      have hc : c = '+' := by simpa using h
      subst hc
      rw [hs] at hd
      rw [hd, List.filter_cons]
      have hp : (fun c => !(c == ' ' || c == '-' || c == '(' || c == ')')) '+' = true := rfl
      simp [hp]

theorem c6_number_normalization_witness :
    (normalizeNumber "+1 (23)-4").data.head? = some '+' :=
  (c6_number_normalization "+1 (23)-4").2.1 (by decide)

/-- C5 (confirmed): the message composer (lines 48-65).  When the name cell
holds a name that is non-blank after trimming, the final message is
`"Dear " ++ name ++ ",\n\n"` followed by the body with its leading newlines
stripped, where `name` is the trimmed cell value carried by the record.
When the name cell is absent or blank, the final message is the body,
unchanged (any leading whitespace or newlines included). -/
theorem c5_message_composer (body : String) (cellB : Cell) :
    (∀ s, cellB = some s → pyStrip s ≠ "" →
      composeMessage (getContactName cellB) body =
        "Dear " ++ pyStrip s ++ ",\n\n" ++ pyLStripNewlines body)
    ∧ ((cellB = none ∨ ∃ s, cellB = some s ∧ pyStrip s = "") →
      composeMessage (getContactName cellB) body = body) := by
  constructor
  · rintro s rfl hs
    have hs0 : s ≠ "" := by
      rintro rfl
      exact hs rfl
    simp [getContactName, hs0, hs, composeMessage, truthy]
  · rintro (rfl | ⟨s, rfl, hs⟩)
    · simp [getContactName, composeMessage, truthy]
    · by_cases hs0 : s = "" <;>
        simp [getContactName, hs0, hs, composeMessage, truthy]

theorem c5_message_composer_witness :
    composeMessage (getContactName (some "Anita")) "\n\nHello" = "Dear Anita,\n\nHello"
    ∧ composeMessage (getContactName none) "  Hello" = "  Hello" := by
  constructor
  · rw [(c5_message_composer "\n\nHello" (some "Anita")).1 "Anita" rfl (by decide)]
    decide
  · exact (c5_message_composer "  Hello" none).2 (Or.inl rfl)

/-- C4 (counterexample): the inclusion check (line 44) is Python truthiness
of the raw cells, applied before any trimming — a whitespace-only number
cell is empty after trimming yet its row is still included (with a
normalized-to-empty number), refuting "included iff both cells are
non-empty after trimming". -/
theorem c4_row_inclusion_counterexample :
    pyStrip " " = ""
    ∧ read_contacts_from_excel "/data" (.ok [[some " ", none, some "hi"]]) =
        [{ number := "", message := "hi", image_path := none }] := by
  exact ⟨rfl, by decide⟩

/-- C4 (amended): a data row is included iff its number cell and its message
cell are both non-empty as raw values (a whitespace-only cell counts as
present; trimming happens only after inclusion); a row failing the check is
silently skipped and does not end the scan. -/
theorem c4_row_inclusion_amended (dir : String) (row : Row) (rest : List Row)
    (h : ∀ r ∈ row :: rest, 3 ≤ r.length) :
    read_contacts_from_excel dir (.ok (row :: rest)) =
      (if qualifies row then [mkContact dir row] else []) ++
        read_contacts_from_excel dir (.ok rest)
    ∧ (qualifies row = true ↔
        (cellAt row 0).getD "" ≠ "" ∧ (cellAt row 2).getD "" ≠ "") := by
  constructor
  · have h1 := readRows_ok dir (row :: rest) h
    have h2 := readRows_ok dir rest (fun r hr => h r (List.mem_cons_of_mem _ hr))
    by_cases hq : qualifies row <;>
      simp [read_contacts_from_excel, h1, h2, List.filter_cons, hq]
  · unfold qualifies truthy
    cases h0 : cellAt row 0 <;> cases h2 : cellAt row 2 <;> simp

theorem c4_row_inclusion_amended_witness :
    read_contacts_from_excel "/d" (.ok [[some "1", none, some "m"], [none, none, some "x"]]) =
      [{ number := "1", message := "m", image_path := none }] := by
  rw [(c4_row_inclusion_amended "/d" [some "1", none, some "m"]
    [[none, none, some "x"]] (by decide)).1]
  decide

/-- C7 (confirmed): on a sheet whose rows are at least three cells wide (the
schema the reader expects), the output is exactly the qualifying rows,
converted in input order — each appears exactly once and repeated contact
numbers are not deduplicated. -/
theorem c7_order_no_dedup (dir : String) (rows : List Row)
    (h : ∀ r ∈ rows, 3 ≤ r.length) :
    read_contacts_from_excel dir (.ok rows) =
      (rows.filter qualifies).map (mkContact dir) := by
  simp [read_contacts_from_excel, readRows_ok dir rows h]

theorem c7_order_no_dedup_witness :
    read_contacts_from_excel "/d" (.ok
      [[some "7", none, some "a"], [none, some "x", some "b"], [some "7", none, some "c"]]) =
      [{ number := "7", message := "a", image_path := none },
        { number := "7", message := "c", image_path := none }] := by
  rw [c7_order_no_dedup "/d" _ (by decide)]
  decide

/-- C8 (counterexample): a failed load is not reported to the caller as an
error — the reader returns the ordinary empty list, the very value a valid
file with zero qualifying rows produces, so the two cases are
indistinguishable at the call site. -/
theorem c8_reader_error_counterexample :
    read_contacts_from_excel "/d" (.error "No such file or directory") = ([] : List Contact)
    ∧ read_contacts_from_excel "/d" (.ok []) = ([] : List Contact)
    ∧ read_contacts_from_excel "/d" (.error "No such file or directory") =
        read_contacts_from_excel "/d" (.ok []) :=
  ⟨rfl, rfl, rfl⟩

/-- C8 (amended): when the source file is missing, corrupt, or unreadable,
the reader prints a cause and returns the empty sequence with no partial
results; a valid file with zero qualifying rows also yields the empty
sequence; no error value reaches the caller in either case. -/
theorem c8_reader_degrades_amended (dir e : String) (rows : List Row) :
    read_contacts_from_excel dir (.error e) = []
    ∧ ((∀ r ∈ rows, qualifies r = false) →
        read_contacts_from_excel dir (.ok rows) = []) := by
  refine ⟨rfl, fun h => ?_⟩
  rcases readRows_none dir rows h with h1 | h1 <;>
    simp [read_contacts_from_excel, h1]

theorem c8_reader_degrades_amended_witness :
    read_contacts_from_excel "/d" (.error "corrupt") = []
    ∧ read_contacts_from_excel "/d"
        (.ok [[none, some "name", some "msg"], [some "+1", some "x"]]) = [] :=
  ⟨(c8_reader_degrades_amended "/d" "corrupt" []).1,
    (c8_reader_degrades_amended "/d" "corrupt"
      [[none, some "name", some "msg"], [some "+1", some "x"]]).2 (by decide)⟩

theorem firstExistingExt_eq_none (fs : FS) (dir clean : String) :
    ∀ (exts : List String),
    (∀ ext ∈ exts, fs.pathExists (joinPath dir (clean ++ ext)) = false) →
    firstExistingExt fs dir clean exts = none
  | [], _ => rfl
  | ext :: rest, h => by
    have h1 := h ext (List.mem_cons_self _ _)
    have h2 := firstExistingExt_eq_none fs dir clean rest
      (fun e he => h e (List.mem_cons_of_mem _ he))
    simp [firstExistingExt, h1, h2]

theorem firstImageInListing_eq_none (dir : String) :
    ∀ (files : List String), (∀ f ∈ files, isImageFile f = false) →
    firstImageInListing dir files = none
  | [], _ => rfl
  | f :: rest, h => by
    have h1 := h f (List.mem_cons_self _ _)
    have h2 := firstImageInListing_eq_none dir rest
      (fun g hg => h g (List.mem_cons_of_mem _ hg))
    simp [firstImageInListing, h1, h2]

/-- C3 (confirmed): with no explicit per-row path in play and no images
folder passed, the resolver searches the spreadsheet's directory — the
number-matched file over the supported extension list first, then the first
image-like file in the listing; in particular a file `919555611880.jpg`
sitting next to the spreadsheet is returned for contact `+919555611880`. -/
theorem c3_spreadsheet_dir_fallback :
    (∀ (fs : FS) (number excelDir : String),
      find_image_for_contact fs number excelDir none =
        searchDir fs excelDir (cleanNumber number))
    ∧ find_image_for_contact
        ⟨fun p => p == "/sheets/919555611880.jpg",
          fun d => if d == "/sheets" then ["919555611880.jpg"] else []⟩
        "+919555611880" "/sheets" none = some "/sheets/919555611880.jpg" :=
  ⟨fun _ _ _ => rfl, by decide⟩

/-- C10 (confirmed): when the images folder is configured and exists but
holds neither a number-matched file nor any file with a supported image
extension, the resolver does not stop with `None` — it goes on to the
spreadsheet-directory search (number match, then first image-like file),
returning `None` only if that also fails. -/
theorem c10_empty_folder_falls_through (fs : FS) (number excelDir folder : String)
    (h0 : folder ≠ "")
    (hex : fs.pathExists (resolveAgainst excelDir folder) = true)
    (hnum : ∀ ext ∈ image_extensions,
      fs.pathExists
        (joinPath (resolveAgainst excelDir folder) (cleanNumber number ++ ext)) = false)
    (himg : ∀ f ∈ fs.listdir (resolveAgainst excelDir folder), isImageFile f = false) :
    find_image_for_contact fs number excelDir (some folder) =
      searchDir fs excelDir (cleanNumber number) := by
  have hn := firstExistingExt_eq_none fs (resolveAgainst excelDir folder)
    (cleanNumber number) image_extensions hnum
  have hi := firstImageInListing_eq_none (resolveAgainst excelDir folder)
    (fs.listdir (resolveAgainst excelDir folder)) himg
  simp [find_image_for_contact, truthy, h0, hex, hn, hi, searchDir]

theorem c10_empty_folder_falls_through_witness :
    find_image_for_contact
      ⟨fun p => p == "/s/imgs" || p == "/s/a.png",
        fun d => if d == "/s" then ["a.png"] else ["readme.txt"]⟩
      "123" "/s" (some "imgs") = some "/s/a.png" := by
  rw [c10_empty_folder_falls_through _ "123" "/s" "imgs"
    (by decide) (by decide) (by decide) (by decide)]
  decide

/-- C1 (counterexample): a row carries a non-empty per-row image path — the
record resolves it and the file even exists — yet with neither
`default_image` nor `images_folder` configured (text-only mode,
lines 3161-3164) the run assigns the job no image at all, so the job's
image path is not the explicit path for every such row. -/
theorem c1_explicit_path_counterexample :
    (mkContact "/sheets" [some "1", none, some "m", some "pic.jpg"]).image_path =
      some "/sheets/pic.jpg"
    ∧ send_bulk_images ⟨fun p => p == "/sheets/pic.jpg", fun _ => []⟩ "/sheets"
        none none [mkContact "/sheets" [some "1", none, some "m", some "pic.jpg"]] =
      [none] :=
  ⟨by decide, by decide⟩

/-- C1 (amended): for a row whose image cell is non-empty after trimming,
the record's image path is that explicit path — joined onto the
spreadsheet's directory when relative, as-is when absolute — with no
file-existence check (the filesystem is arbitrary here), and in
images-folder mode the job uses it, taking priority over the
`images_folder` lookup; in text-only mode (no default image, no images
folder) the explicit path is ignored and the job gets no image. -/
theorem c1_explicit_path_amended (fs : FS) (dir : String) (row : Row) (s : String)
    (folder : Option String) (hcell : cellAt row 3 = some s) (hs : pyStrip s ≠ "")
    (hf : truthy folder = true) :
    (mkContact dir row).image_path = some (resolveAgainst dir (pyStrip s))
    ∧ resolveJobImage fs dir none folder (mkContact dir row) =
        some (resolveAgainst dir (pyStrip s))
    ∧ resolveJobImage fs dir none none (mkContact dir row) = none := by
  have hs0 : s ≠ "" := by
    rintro rfl
    exact hs rfl
  have h1 : (mkContact dir row).image_path = some (resolveAgainst dir (pyStrip s)) := by
    simp [mkContact, getRowImagePath, hcell, hs0, hs]
  have hne : resolveAgainst dir (pyStrip s) ≠ "" := resolveAgainst_ne_empty dir _ hs
  refine ⟨h1, ?_, ?_⟩
  · unfold resolveJobImage
    simp only [hf, h1]
    simp [truthy, hne]
  · simp [resolveJobImage, truthy]

theorem c1_explicit_path_amended_witness :
    (mkContact "/s" [some "1", none, some "m", some "pic.jpg"]).image_path =
      some "/s/pic.jpg"
    ∧ resolveJobImage ⟨fun _ => false, fun _ => []⟩ "/s" none (some "/s/imgs")
        (mkContact "/s" [some "1", none, some "m", some "pic.jpg"]) =
      some "/s/pic.jpg" := by
  have h := c1_explicit_path_amended (⟨fun _ => false, fun _ => []⟩ : FS) "/s"
    [some "1", none, some "m", some "pic.jpg"] "pic.jpg" (some "/s/imgs")
    (by decide) (by decide) (by decide)
  constructor
  · rw [h.1]
    decide
  · rw [h.2.1]
    decide

/-- C2 (confirmed): when a default image is configured and its resolved
path exists, every job of the run receives that same fixed path, whatever
its per-row data and whatever images folder is configured — the default
is checked before all per-contact resolution steps. -/
theorem c2_default_image_for_all (fs : FS) (dir d : String) (folder : Option String)
    (contacts : List Contact) (hd : d ≠ "")
    (hex : fs.pathExists (resolveAgainst dir d) = true) :
    send_bulk_images fs dir (some d) folder contacts =
      contacts.map (fun _ => some (resolveAgainst dir d)) := by
  have hD : setupDefaultImage fs dir (some d) = some (resolveAgainst dir d) := by
    simp [setupDefaultImage, truthy, hd, hex]
  have hne : resolveAgainst dir d ≠ "" := resolveAgainst_ne_empty dir d hd
  have hF : setupImagesFolder fs dir (some (resolveAgainst dir d)) folder = folder := by
    simp [setupImagesFolder, truthy, hne]
  simp only [send_bulk_images]
  rw [hD, hF]
  induction contacts with
  | nil => rfl
  | cons c cs ih =>
    simp only [List.map_cons, ih]
    congr 1
    simp [resolveJobImage, truthy, hne]

theorem c2_default_image_for_all_witness :
    send_bulk_images ⟨fun p => p == "/s/img.jpg", fun _ => []⟩ "/s" (some "img.jpg")
      (some "imgs")
      [{ number := "1", message := "a", image_path := some "/x/other.png" },
        { number := "2", message := "b", image_path := none }] =
      [some "/s/img.jpg", some "/s/img.jpg"] := by
  rw [c2_default_image_for_all _ "/s" "img.jpg" _ _ (by decide) (by decide)]
  decide

/-- C9 (confirmed): when the configured default image does not exist, the
run does not fail — the default is cleared at startup and the whole run
behaves exactly as if no default image had been configured, proceeding
under the remaining configuration (images-folder mode if configured,
otherwise text-only). -/
theorem c9_missing_default_degrades (fs : FS) (dir d : String) (folder : Option String)
    (contacts : List Contact) (hd : d ≠ "")
    (hmiss : fs.pathExists (resolveAgainst dir d) = false) :
    send_bulk_images fs dir (some d) folder contacts =
      send_bulk_images fs dir none folder contacts := by
  have hD : setupDefaultImage fs dir (some d) = none := by
    simp [setupDefaultImage, truthy, hd, hmiss]
  have hD0 : setupDefaultImage fs dir none = none := rfl
  simp only [send_bulk_images, hD, hD0]

theorem c9_missing_default_degrades_witness :
    send_bulk_images ⟨fun p => p == "/s/imgs" || p == "/s/imgs/5.jpg", fun _ => []⟩ "/s"
      (some "gone.jpg") (some "imgs")
      [{ number := "5", message := "m", image_path := none }] =
      send_bulk_images ⟨fun p => p == "/s/imgs" || p == "/s/imgs/5.jpg", fun _ => []⟩ "/s"
        none (some "imgs") [{ number := "5", message := "m", image_path := none }]
    ∧ send_bulk_images ⟨fun p => p == "/s/imgs" || p == "/s/imgs/5.jpg", fun _ => []⟩ "/s"
        (some "gone.jpg") (some "imgs")
        [{ number := "5", message := "m", image_path := none }] =
      [some "/s/imgs/5.jpg"] := by
  have h := c9_missing_default_degrades
    (⟨fun p => p == "/s/imgs" || p == "/s/imgs/5.jpg", fun _ => []⟩ : FS) "/s"
    "gone.jpg" (some "imgs") [{ number := "5", message := "m", image_path := none }]
    (by decide) (by decide)
  exact ⟨h, h.trans (by decide)⟩

end WhatsAppSender
